import Mathlib

/-!
Verification of the mittorch supervision-and-reconciliation loop.

The Rust sources (src/main.rs, src/github.rs, src/config.rs) are embedded
shallowly: external effects (process polling, git open/clone, filesystem
removal, HTTP requests, process spawning) are modelled by an oracle record
`TickEnv` giving each call's outcome, and each tick produces the ordered
list of effectful actions it performed (`Event`) together with a flag
saying whether an error propagated out of `main` via `?` (terminating the
program with a non-zero exit).
-/

namespace Mittorch

/-- Mirror of `config::Config` (src/config.rs). -/
structure Config where
  account : String
  repository : String
  branch : String
  token : Option String
  interval : Nat
  start_command : Option String
  stop_command : Option String
deriving Repr, DecidableEq

/-! ## github.rs -/

/-- The token normalisation used in both `prepare_repository` and
`get_latest_remote_sha`: `token.map(|t| t.trim()).filter(|t| !t.is_empty())`. -/
def effectiveToken (token : Option String) : Option String :=
  (token.map String.trim).filter (fun t => !t.isEmpty)

/-- The clone URL built in `prepare_repository` (src/github.rs lines 19-22). -/
def repo_url (account repository : String) (token : Option String) : String :=
  match effectiveToken token with
  | some tok =>
      "https://" ++ tok ++ "@github.com/" ++ account ++ "/" ++ repository ++ ".git"
  | none =>
      "https://github.com/" ++ account ++ "/" ++ repository ++ ".git"

/-- The optional Authorization header added in `get_latest_remote_sha`
(src/github.rs lines 80-82). -/
def authHeader (token : Option String) : Option String :=
  (effectiveToken token).map (fun tok => "token " ++ tok)

/-- A small JSON value model, enough for serde_json indexing semantics:
indexing a non-object or a missing key yields `null`, and `as_str`
succeeds only on strings. -/
inductive Json where
  | null
  | bool (b : Bool)
  | num (n : Int)
  | str (s : String)
  | arr (xs : List Json)
  | obj (fields : List (String × Json))
deriving Repr

/-- serde_json `value[key]`: `null` on non-objects and missing keys. -/
def Json.getField (j : Json) (key : String) : Json :=
  match j with
  | .obj fields =>
      match fields.find? (fun p => p.1 == key) with
      | some p => p.2
      | none => .null
  | _ => .null

/-- serde_json `Value::as_str`. -/
def Json.asStr (j : Json) : Option String :=
  match j with
  | .str s => some s
  | _ => none

/-- The response handling of `get_latest_remote_sha` (src/github.rs lines
86-96), as a pure function of the HTTP status code and parsed JSON body:
401 and 404 map to dedicated errors, other non-2xx to a generic API error,
and on 2xx the result is `json["commit"]["sha"].as_str().unwrap_or_default()`. -/
def get_latest_remote_sha (status : Nat) (body : Json) : Except String String :=
  if status == 401 then
    .error "unauthorized: invalid or missing token"
  else if status == 404 then
    .error "repository not found (check visibility and account)"
  else if !(200 ≤ status && status < 300) then
    .error "GitHub API error"
  else
    .ok (((body.getField "commit").getField "sha").asStr.getD "")

/-! ## main.rs tick loop -/

/-- The effectful actions a tick can perform, in the order the code
performs them. `removeDir` is `fs::remove_dir_all` on the checkout,
`clone` is a call to `prepare_repository`, `stopCmd` runs the configured
stop command through `run_command`, `sleepOneSec` is the one-second wait
after the stop command, `killChild`/`waitChild` are `child.kill()` and
`child.wait()`, and `spawn` is a call to `start_process`. -/
inductive Event where
  | removeDir
  | clone
  | stopCmd
  | sleepOneSec
  | killChild
  | waitChild
  | spawn
deriving Repr, DecidableEq

/-- Oracle for one tick: the outcome of every external call the tick may
make. `exitStatus`: result of `child.try_wait()` (`none` = still running,
`some c` = exited with `status.code() = c`). `tryWaitErr`: `try_wait`
itself returned `Err` (propagates via `?`). `openOk`: whether
`git2::Repository::open` succeeds. `localSha`: the value of
`get_local_commit_hash(&repo).unwrap_or_default()`. `remoteSha`: result of
`get_latest_remote_sha`. `removeOk`: whether `fs::remove_dir_all`
succeeds. `cloneOk`: whether `prepare_repository` succeeds.
`stopStatusErr`: whether `Command::status()` inside `run_command` returns
`Err` (propagates via `?`). `stopExitSuccess`: the stop command's exit
status (affects logging only). `spawnOk`: whether
`Command::spawn()` inside `start_process` succeeds. -/
structure TickEnv where
  exitStatus : Option (Option Int)
  tryWaitErr : Bool
  openOk : Bool
  localSha : String
  remoteSha : Except String String
  removeOk : Bool
  cloneOk : Bool
  stopStatusErr : Bool
  stopExitSuccess : Bool
  spawnOk : Bool
deriving Repr

/-- Result of one tick: the ordered effect trace, and whether an error
propagated out of `main` via `?`, terminating the program. -/
structure TickResult where
  events : List Event
  fatal : Bool
deriving Repr, DecidableEq

/-- Crash-recovery update check (src/main.rs lines 60-100): open the repo;
on success compare local and remote SHAs; if both non-empty and distinct,
remove the checkout and, only if removal succeeded, re-clone (clone
failure is logged only). Open failure and remote-query failure are logged
only. -/
def crashUpdateCheck (env : TickEnv) : List Event :=
  if env.openOk then
    match env.remoteSha with
    | .ok remote =>
        if !env.localSha.isEmpty && !remote.isEmpty && env.localSha != remote then
          if env.removeOk then [Event.removeDir, Event.clone]
          else [Event.removeDir]
        else []
    | .error _ => []
  else []

/-- The tail of the drift-reload path (src/main.rs lines 168-188): remove
the checkout (failure aborts the tick with `continue`), re-clone (failure
aborts with `continue`), then restart via `start_process` when a start
command is configured; a spawn failure propagates via `?`. -/
def reloadSteps (cfg : Config) (env : TickEnv) (pre : List Event) : TickResult :=
  if !env.removeOk then
    { events := pre ++ [Event.removeDir], fatal := false }
  else if !env.cloneOk then
    { events := pre ++ [Event.removeDir, Event.clone], fatal := false }
  else
    match cfg.start_command with
    | some _ =>
        { events := pre ++ [Event.removeDir, Event.clone, Event.spawn],
          fatal := !env.spawnOk }
    | none =>
        { events := pre ++ [Event.removeDir, Event.clone], fatal := false }

/-- One iteration of the reconciliation loop body (src/main.rs lines
48-191), after the interval sleep. -/
def tick (cfg : Config) (env : TickEnv) : TickResult :=
  if env.tryWaitErr then
    { events := [], fatal := true }
  else
    match env.exitStatus with
    | some _ =>
        -- crash/exit handling (lines 51-111)
        let upd := crashUpdateCheck env
        match cfg.start_command with
        | some _ => { events := upd ++ [Event.spawn], fatal := !env.spawnOk }
        | none => { events := upd, fatal := false }
    | none =>
        -- regular update check (lines 113-191)
        if !env.openOk then
          -- repo missing: retry clone, result logged either way (lines 116-129)
          { events := [Event.clone], fatal := false }
        else
          match env.remoteSha with
          | .error _ => { events := [], fatal := false }
          | .ok remote =>
              if env.localSha.isEmpty || remote.isEmpty then
                { events := [], fatal := false }
              else if env.localSha != remote then
                match cfg.stop_command with
                | some _ =>
                    if env.stopStatusErr then
                      { events := [Event.stopCmd], fatal := true }
                    else
                      reloadSteps cfg env [Event.stopCmd, Event.sleepOneSec]
                | none =>
                    reloadSteps cfg env [Event.killChild, Event.waitChild]
              else
                { events := [], fatal := false }

/-- Program exit: `ok` is `Ok(())` from `main` (exit code 0), `err` is a
propagated error (non-zero exit). -/
inductive ProgResult where
  | ok
  | err
deriving Repr, DecidableEq

/-- The tick loop (src/main.rs lines 47-199). The schedule lists the
oracle for each tick executed while the shutdown flag is still true; the
end of the schedule is the first observation of the flag as false, at
which point the loop exits, kills and waits the current child once, and
`main` returns `Ok(())`. A fatal tick terminates the program early with
an error. -/
def loopRun (cfg : Config) (schedule : List TickEnv) : List Event × ProgResult :=
  match schedule with
  | [] => ([Event.killChild, Event.waitChild], ProgResult.ok)
  | env :: rest =>
      let t := tick cfg env
      if t.fatal then (t.events, ProgResult.err)
      else
        let (evs, r) := loopRun cfg rest
        (t.events ++ evs, r)

/-- Concatenated effect traces of a schedule of ticks. -/
def ticksEvents (cfg : Config) : List TickEnv → List Event
  | [] => []
  | env :: rest => (tick cfg env).events ++ ticksEvents cfg rest

/-- The whole program (src/main.rs `main`, lines 16-199): initial
`prepare_repository` attempt whose failure is logged only, then the
start-command check — absence terminates with an error before the loop —
then the initial spawn (failure propagates via `?`), then the tick loop. -/
def runProgram (cfg : Config) (initCloneOk initSpawnOk : Bool)
    (schedule : List TickEnv) : List Event × ProgResult :=
  -- initial clone attempt: performed unconditionally, result only logged
  let initEvents := [Event.clone]
  match cfg.start_command with
  | none => (initEvents, ProgResult.err)
  | some _ =>
      if !initSpawnOk then (initEvents ++ [Event.spawn], ProgResult.err)
      else
        let (evs, r) := loopRun cfg schedule
        (initEvents ++ [Event.spawn] ++ evs, r)

/-! ## Theorems -/

/-- Claim C7: if no start command is configured, the program terminates at
startup with a non-zero exit code, after exactly one initial clone attempt
and before entering the tick loop (no clone retries, no tick events). -/
theorem C7_no_start_command (cfg : Config) (hNone : cfg.start_command = none)
    (initCloneOk initSpawnOk : Bool) (schedule : List TickEnv) :
    runProgram cfg initCloneOk initSpawnOk schedule = ([Event.clone], ProgResult.err) ∧
    (runProgram cfg initCloneOk initSpawnOk schedule).1.count Event.clone = 1 := by
  unfold runProgram
  rw [hNone]
  exact ⟨rfl, rfl⟩

/-- Witness for C7 at a concrete configuration. -/
theorem C7_no_start_command_witness :
    runProgram
      { account := "acct", repository := "repo", branch := "main", token := none,
        interval := 60, start_command := none, stop_command := none }
      true true [] = ([Event.clone], ProgResult.err) :=
  (C7_no_start_command _ rfl true true []).1

/-- Claim C8: a token that is absent, empty, or whitespace-only behaves as
no token: the clone URL carries no credential and the remote-head request
carries no Authorization header. -/
theorem C8_blank_token (account repository : String) (token : Option String)
    (hBlank : token = none ∨ ∃ t, token = some t ∧ t.trim = "") :
    repo_url account repository token =
      "https://github.com/" ++ account ++ "/" ++ repository ++ ".git" ∧
    authHeader token = none := by
  have hEff : effectiveToken token = none := by
    rcases hBlank with h | ⟨t, ht, htrim⟩
    · simp [effectiveToken, h]
    · simp [effectiveToken, ht, Option.filter, htrim, String.isEmpty_iff]
  exact ⟨by simp [repo_url, hEff], by simp [authHeader, hEff]⟩

/-- Witness for C8 at an absent token. -/
theorem C8_blank_token_witness :
    repo_url "acct" "repo" none =
      "https://github.com/" ++ "acct" ++ "/" ++ "repo" ++ ".git" ∧
    authHeader none = none :=
  C8_blank_token "acct" "repo" none (Or.inl rfl)

/-- Claim C10: a 2xx response whose JSON body lacks a string
`commit.sha` field makes `get_latest_remote_sha` return `Ok("")` rather
than an error, and an empty remote SHA makes the tick inconclusive
downstream (no effects, no termination). -/
theorem C10_missing_sha (status : Nat) (body : Json)
    (h2 : 200 ≤ status) (h3 : status < 300)
    (hSha : ((body.getField "commit").getField "sha").asStr = none)
    (cfg : Config) (env : TickEnv)
    (hTW : env.tryWaitErr = false) (hAlive : env.exitStatus = none)
    (hOpen : env.openOk = true) (hRem : env.remoteSha = Except.ok "") :
    get_latest_remote_sha status body = Except.ok "" ∧
    (tick cfg env).events = [] ∧ (tick cfg env).fatal = false := by
  have h401 : (status == 401) = false := beq_eq_false_iff_ne.mpr (by omega)
  have h404 : (status == 404) = false := beq_eq_false_iff_ne.mpr (by omega)
  have hrange : (200 ≤ status && status < 300) = true := by
    simp only [Bool.and_eq_true, decide_eq_true_eq]
    omega
  refine ⟨?_, ?_⟩
  · unfold get_latest_remote_sha
    rw [h401, h404, hrange, hSha]
    rfl
  · unfold tick
    rw [hTW, hAlive, hOpen, hRem]
    simp [String.isEmpty_iff]

/-- Witness for C10: status 200 with an empty JSON object body. -/
theorem C10_missing_sha_witness :
    get_latest_remote_sha 200 (Json.obj []) = Except.ok "" ∧
    (tick
      { account := "acct", repository := "repo", branch := "main", token := none,
        interval := 60, start_command := some "./run.sh", stop_command := none }
      { exitStatus := none, tryWaitErr := false, openOk := true,
        localSha := "aaaaaaaa", remoteSha := Except.ok "", removeOk := true,
        cloneOk := true, stopStatusErr := false, stopExitSuccess := true,
        spawnOk := true }).events = [] :=
  let h := C10_missing_sha 200 (Json.obj []) (by decide) (by decide) rfl
    { account := "acct", repository := "repo", branch := "main", token := none,
      interval := 60, start_command := some "./run.sh", stop_command := none }
    { exitStatus := none, tryWaitErr := false, openOk := true,
      localSha := "aaaaaaaa", remoteSha := Except.ok "", removeOk := true,
      cloneOk := true, stopStatusErr := false, stopExitSuccess := true,
      spawnOk := true } rfl rfl rfl rfl
  ⟨h.1, h.2.1⟩

/-- Claim C5: with the process alive and the local repo openable, an
empty (or unreadable, hence defaulted-empty) local or remote SHA — or a
failed remote query — triggers no reload: the tick performs no effects at
all and the loop continues. -/
theorem C5_inconclusive_tick (cfg : Config) (env : TickEnv)
    (hTW : env.tryWaitErr = false) (hAlive : env.exitStatus = none)
    (hOpen : env.openOk = true)
    (hIncl : ∀ r, env.remoteSha = Except.ok r → env.localSha = "" ∨ r = "") :
    (tick cfg env).events = [] ∧ (tick cfg env).fatal = false ∧
    Event.stopCmd ∉ (tick cfg env).events ∧
    Event.killChild ∉ (tick cfg env).events ∧
    Event.removeDir ∉ (tick cfg env).events ∧
    Event.clone ∉ (tick cfg env).events ∧
    Event.spawn ∉ (tick cfg env).events := by
  have hMain : tick cfg env = { events := [], fatal := false } := by
    unfold tick
    rw [hTW, hAlive, hOpen]
    cases hrs : env.remoteSha with
    | error e => simp
    | ok r =>
        rcases hIncl r hrs with h | h <;> simp [h, String.isEmpty_iff]
  rw [hMain]
  simp

/-- Witness for C5: alive process, empty remote SHA. -/
theorem C5_inconclusive_tick_witness :
    (tick
      { account := "acct", repository := "repo", branch := "main", token := none,
        interval := 60, start_command := some "./run.sh", stop_command := none }
      { exitStatus := none, tryWaitErr := false, openOk := true,
        localSha := "aaaaaaaa", remoteSha := Except.ok "", removeOk := true,
        cloneOk := true, stopStatusErr := false, stopExitSuccess := true,
        spawnOk := true }).events = [] :=
  (C5_inconclusive_tick _ _ rfl rfl rfl
    (fun r hr => Or.inr (Except.ok.inj hr).symm)).1

/-- Claim C9: during crash recovery, if the local repository cannot be
opened, the tick makes no clone attempt and removes nothing — the failure
is logged and the process is restarted as-is; only the alive-process path
repairs a missing checkout by cloning. -/
theorem C9_crash_recovery_open_failure (cfg : Config) (env envAlive : TickEnv)
    (hTW : env.tryWaitErr = false) (c : Option Int) (hExit : env.exitStatus = some c)
    (hOpen : env.openOk = false)
    (st : String) (hStart : cfg.start_command = some st) (hSp : env.spawnOk = true)
    (hTW2 : envAlive.tryWaitErr = false) (hAlive : envAlive.exitStatus = none)
    (hOpen2 : envAlive.openOk = false) :
    ((tick cfg env).events = [Event.spawn] ∧ (tick cfg env).fatal = false ∧
      Event.clone ∉ (tick cfg env).events ∧ Event.removeDir ∉ (tick cfg env).events) ∧
    (tick cfg envAlive).events = [Event.clone] := by
  constructor
  · have hMain : tick cfg env = { events := [Event.spawn], fatal := false } := by
      unfold tick
      rw [hTW, hExit, hStart]
      simp [crashUpdateCheck, hOpen, hSp]
    rw [hMain]
    simp
  · unfold tick
    rw [hTW2, hAlive, hOpen2]
    simp

/-- Witness for C9: crashed process with unopenable repo, and alive
process with unopenable repo. -/
theorem C9_crash_recovery_open_failure_witness :
    ((tick
      { account := "acct", repository := "repo", branch := "main", token := none,
        interval := 60, start_command := some "./run.sh", stop_command := none }
      { exitStatus := some (some 137), tryWaitErr := false, openOk := false,
        localSha := "", remoteSha := Except.ok "bbbbbbbb", removeOk := true,
        cloneOk := true, stopStatusErr := false, stopExitSuccess := true,
        spawnOk := true }).events = [Event.spawn] ∧
     (tick
      { account := "acct", repository := "repo", branch := "main", token := none,
        interval := 60, start_command := some "./run.sh", stop_command := none }
      { exitStatus := some (some 137), tryWaitErr := false, openOk := false,
        localSha := "", remoteSha := Except.ok "bbbbbbbb", removeOk := true,
        cloneOk := true, stopStatusErr := false, stopExitSuccess := true,
        spawnOk := true }).fatal = false ∧
      Event.clone ∉ (tick
      { account := "acct", repository := "repo", branch := "main", token := none,
        interval := 60, start_command := some "./run.sh", stop_command := none }
      { exitStatus := some (some 137), tryWaitErr := false, openOk := false,
        localSha := "", remoteSha := Except.ok "bbbbbbbb", removeOk := true,
        cloneOk := true, stopStatusErr := false, stopExitSuccess := true,
        spawnOk := true }).events ∧
      Event.removeDir ∉ (tick
      { account := "acct", repository := "repo", branch := "main", token := none,
        interval := 60, start_command := some "./run.sh", stop_command := none }
      { exitStatus := some (some 137), tryWaitErr := false, openOk := false,
        localSha := "", remoteSha := Except.ok "bbbbbbbb", removeOk := true,
        cloneOk := true, stopStatusErr := false, stopExitSuccess := true,
        spawnOk := true }).events) ∧
    (tick
      { account := "acct", repository := "repo", branch := "main", token := none,
        interval := 60, start_command := some "./run.sh", stop_command := none }
      { exitStatus := none, tryWaitErr := false, openOk := false,
        localSha := "", remoteSha := Except.ok "bbbbbbbb", removeOk := true,
        cloneOk := true, stopStatusErr := false, stopExitSuccess := true,
        spawnOk := true }).events = [Event.clone] :=
  C9_crash_recovery_open_failure _ _ _ rfl (some 137) rfl rfl "./run.sh" rfl rfl
    rfl rfl rfl

/-- Claim C6: once the shutdown flag is observed false at the top of the
tick loop, no further reconciliation tick executes; exactly one
kill-and-wait pair is issued after the final tick, and the program exits
with code 0. -/
theorem C6_shutdown (cfg : Config) (schedule : List TickEnv)
    (hOK : ∀ env ∈ schedule, (tick cfg env).fatal = false) :
    loopRun cfg schedule =
      (ticksEvents cfg schedule ++ [Event.killChild, Event.waitChild],
       ProgResult.ok) := by
  induction schedule with
  | nil => rfl
  | cons env rest ih =>
      have hf : (tick cfg env).fatal = false := hOK env (List.mem_cons_self _ _)
      have hrest : ∀ e ∈ rest, (tick cfg e).fatal = false :=
        fun e he => hOK e (List.mem_cons_of_mem _ he)
      simp only [loopRun, ticksEvents, hf, Bool.false_eq_true, if_false,
        ih hrest, List.append_assoc]

/-- Witness for C6 at the empty schedule: the flag is observed false at
the first loop-top check. -/
theorem C6_shutdown_witness :
    loopRun
      { account := "acct", repository := "repo", branch := "main", token := none,
        interval := 60, start_command := some "./run.sh", stop_command := none }
      [] =
      (ticksEvents
        { account := "acct", repository := "repo", branch := "main", token := none,
          interval := 60, start_command := some "./run.sh", stop_command := none }
        [] ++ [Event.killChild, Event.waitChild], ProgResult.ok) :=
  C6_shutdown _ [] (by intro e he; exact absurd he (List.not_mem_nil e))

/-- Claim C3: on a tick where the process has exited and local and remote
SHAs resolve equal and non-empty, the process is restarted exactly once
and no directory removal or re-clone occurs. -/
theorem C3_crash_no_update (cfg : Config) (env : TickEnv)
    (hTW : env.tryWaitErr = false) (c : Option Int) (hExit : env.exitStatus = some c)
    (hOpen : env.openOk = true)
    (hRem : env.remoteSha = Except.ok env.localSha) (hNE : env.localSha ≠ "")
    (st : String) (hStart : cfg.start_command = some st) (hSp : env.spawnOk = true) :
    (tick cfg env).events = [Event.spawn] ∧
    (tick cfg env).events.count Event.spawn = 1 ∧
    Event.removeDir ∉ (tick cfg env).events ∧
    Event.clone ∉ (tick cfg env).events ∧
    (tick cfg env).fatal = false := by
  have hMain : tick cfg env = { events := [Event.spawn], fatal := false } := by
    unfold tick
    rw [hTW, hExit, hStart]
    simp [crashUpdateCheck, hOpen, hRem, hSp]
  rw [hMain]
  refine ⟨rfl, by decide, by decide, by decide, rfl⟩

/-- Witness for C3: exit code 137, equal non-empty hashes. -/
theorem C3_crash_no_update_witness :
    (tick
      { account := "acct", repository := "repo", branch := "main", token := none,
        interval := 60, start_command := some "./run.sh", stop_command := none }
      { exitStatus := some (some 137), tryWaitErr := false, openOk := true,
        localSha := "aaaaaaaa", remoteSha := Except.ok "aaaaaaaa", removeOk := true,
        cloneOk := true, stopStatusErr := false, stopExitSuccess := true,
        spawnOk := true }).events = [Event.spawn] :=
  (C3_crash_no_update _ _ rfl (some 137) rfl rfl rfl (by decide)
    "./run.sh" rfl rfl).1

/-- Claim C4: on a tick where the process has exited and local and remote
SHAs are non-empty and distinct, the checkout is removed, the repository
re-cloned and the process restarted, each exactly once. -/
theorem C4_crash_update (cfg : Config) (env : TickEnv)
    (hTW : env.tryWaitErr = false) (c : Option Int) (hExit : env.exitStatus = some c)
    (hOpen : env.openOk = true)
    (r : String) (hRem : env.remoteSha = Except.ok r)
    (hL : env.localSha ≠ "") (hR : r ≠ "") (hNe : env.localSha ≠ r)
    (hRemove : env.removeOk = true) (hClone : env.cloneOk = true)
    (st : String) (hStart : cfg.start_command = some st) (hSp : env.spawnOk = true) :
    (tick cfg env).events = [Event.removeDir, Event.clone, Event.spawn] ∧
    (tick cfg env).events.count Event.removeDir = 1 ∧
    (tick cfg env).events.count Event.clone = 1 ∧
    (tick cfg env).events.count Event.spawn = 1 ∧
    (tick cfg env).fatal = false := by
  have hL' : env.localSha.isEmpty = false := by
    rw [← Bool.not_eq_true, String.isEmpty_iff]
    exact hL
  have hR' : r.isEmpty = false := by
    rw [← Bool.not_eq_true, String.isEmpty_iff]
    exact hR
  have hMain : tick cfg env =
      { events := [Event.removeDir, Event.clone, Event.spawn], fatal := false } := by
    unfold tick
    rw [hTW, hExit, hStart]
    simp [crashUpdateCheck, hOpen, hRem, hRemove, hSp, hL', hR', hNe]
  rw [hMain]
  refine ⟨rfl, by decide, by decide, by decide, rfl⟩

/-- Witness for C4: exit code 1, hashes aaaaaaaa versus bbbbbbbb. -/
theorem C4_crash_update_witness :
    (tick
      { account := "acct", repository := "repo", branch := "main", token := none,
        interval := 60, start_command := some "./run.sh", stop_command := none }
      { exitStatus := some (some 1), tryWaitErr := false, openOk := true,
        localSha := "aaaaaaaa", remoteSha := Except.ok "bbbbbbbb", removeOk := true,
        cloneOk := true, stopStatusErr := false, stopExitSuccess := true,
        spawnOk := true }).events = [Event.removeDir, Event.clone, Event.spawn] :=
  (C4_crash_update _ _ rfl (some 1) rfl rfl "bbbbbbbb" rfl (by decide) (by decide)
    (by decide) rfl rfl "./run.sh" rfl rfl).1

/-- Claim C2: a drift reload with a configured stop command keeps the
invariant step order — stop command, one-second wait, directory removal,
re-clone, restart — and a removal or re-clone failure aborts the tick
before any later step (in particular, no restart). -/
theorem C2_reload_order (cfg : Config) (env : TickEnv)
    (hTW : env.tryWaitErr = false) (hAlive : env.exitStatus = none)
    (hOpen : env.openOk = true)
    (r : String) (hRem : env.remoteSha = Except.ok r)
    (hL : env.localSha ≠ "") (hR : r ≠ "") (hNe : env.localSha ≠ r)
    (sc : String) (hStop : cfg.stop_command = some sc)
    (hSS : env.stopStatusErr = false) :
    (env.removeOk = false →
      (tick cfg env).events = [Event.stopCmd, Event.sleepOneSec, Event.removeDir] ∧
      (tick cfg env).fatal = false) ∧
    (env.removeOk = true → env.cloneOk = false →
      (tick cfg env).events =
        [Event.stopCmd, Event.sleepOneSec, Event.removeDir, Event.clone] ∧
      (tick cfg env).fatal = false) ∧
    (∀ st, env.removeOk = true → env.cloneOk = true → cfg.start_command = some st →
      (tick cfg env).events =
        [Event.stopCmd, Event.sleepOneSec, Event.removeDir, Event.clone,
         Event.spawn]) := by
  have hTick : tick cfg env =
      reloadSteps cfg env [Event.stopCmd, Event.sleepOneSec] := by
    unfold tick
    rw [hTW, hAlive, hOpen, hRem, hStop, hSS]
    simp [hL, hR, hNe, String.isEmpty_iff]
  refine ⟨?_, ?_, ?_⟩
  · intro hRm
    rw [hTick]
    unfold reloadSteps
    rw [hRm]
    exact ⟨rfl, rfl⟩
  · intro hRm hCl
    rw [hTick]
    unfold reloadSteps
    rw [hRm, hCl]
    exact ⟨rfl, rfl⟩
  · intro st hRm hCl hSt
    rw [hTick]
    unfold reloadSteps
    rw [hRm, hCl, hSt]
    rfl

/-- Witness for C2: successful reload with stop command configured. -/
theorem C2_reload_order_witness :
    (tick
      { account := "acct", repository := "repo", branch := "main", token := none,
        interval := 60, start_command := some "./run.sh",
        stop_command := some "./stop.sh" }
      { exitStatus := none, tryWaitErr := false, openOk := true,
        localSha := "aaaaaaaa", remoteSha := Except.ok "bbbbbbbb", removeOk := true,
        cloneOk := true, stopStatusErr := false, stopExitSuccess := true,
        spawnOk := true }).events =
      [Event.stopCmd, Event.sleepOneSec, Event.removeDir, Event.clone,
       Event.spawn] :=
  (C2_reload_order _ _ rfl rfl rfl "bbbbbbbb" rfl (by decide) (by decide)
    (by decide) "./stop.sh" rfl rfl).2.2 "./run.sh" rfl rfl rfl

/-- Counterexample to claim C1 as stated: a process-spawn failure during
crash recovery is not merely logged — `start_process(start, repo_path)?`
propagates the error out of `main` (src/main.rs line 104), terminating the
program with a non-zero exit instead of continuing to the next tick. -/
theorem C1_spawn_failure_counterexample :
    (runProgram
      { account := "acct", repository := "repo", branch := "main", token := none,
        interval := 60, start_command := some "./run.sh", stop_command := none }
      true true
      [{ exitStatus := some (some 1), tryWaitErr := false, openOk := true,
         localSha := "aaaaaaaa", remoteSha := Except.ok "aaaaaaaa", removeOk := true,
         cloneOk := true, stopStatusErr := false, stopExitSuccess := true,
         spawnOk := false }]).2 = ProgResult.err := by
  rfl

/-- Claim C1 (amended): every error inside a reconciliation tick is logged
and the loop continues, except the errors that propagate via `?`: a
liveness-poll (`try_wait`) failure, a process-spawn failure (during crash
recovery or reload restart), and a failure to spawn the stop command. In
particular, drift/remote-query failures, unopenable repositories,
removal and re-clone failures, and a stop command that runs but exits
unsuccessfully all leave the tick non-fatal. -/
theorem C1_tick_errors_nonfatal (cfg : Config) (env : TickEnv)
    (hTW : env.tryWaitErr = false) (hSp : env.spawnOk = true)
    (hSS : env.stopStatusErr = false) :
    (tick cfg env).fatal = false := by
  unfold tick reloadSteps
  simp only [hTW, Bool.false_eq_true, if_false]
  cases hes : env.exitStatus with
  | some c => cases hsc : cfg.start_command <;> simp [hSp]
  | none =>
      cases ho : env.openOk with
      | false => simp
      | true =>
          simp only [Bool.not_true, Bool.false_eq_true, if_false]
          cases hrs : env.remoteSha with
          | error e => simp
          | ok r =>
              cases hst : cfg.stop_command <;> cases hsc : cfg.start_command <;>
                simp only [hSS, Bool.false_eq_true, if_false] <;>
                split_ifs <;> simp [hSp]

/-- Witness for the amended C1: a tick where the remote query fails, the
stop command would exit unsuccessfully, and removal would fail is still
non-fatal. -/
theorem C1_tick_errors_nonfatal_witness :
    (tick
      { account := "acct", repository := "repo", branch := "main", token := none,
        interval := 60, start_command := some "./run.sh",
        stop_command := some "./stop.sh" }
      { exitStatus := none, tryWaitErr := false, openOk := true,
        localSha := "aaaaaaaa", remoteSha := Except.error "network down",
        removeOk := false, cloneOk := false, stopStatusErr := false,
        stopExitSuccess := false, spawnOk := true }).fatal = false :=
  C1_tick_errors_nonfatal _ _ rfl rfl rfl

end Mittorch
